import Mathlib

/-!
Verification development for the `lakshmi-library` database-bootstrap routine.

The repository ships only the test suites of `src/bootstrap.ts`; the bootstrap
routine itself is absent from the sources.  Every definition below whose doc
comment starts with `Modelled from the spec:` is therefore a faithful shallow
embedding of the behaviour described in `spec.md` (sections 4 to 7), using the
exact SQL texts, connection options and control flow the spec prescribes.

The run of the handler is embedded as the trace of externally observable
events: connection openings (with their option objects), issued SQL statements
and connection closings, together with the returned message.  Failures of
individual statements are modelled by an oracle (`DbWorld`) saying at which
statement index, if any, each connection's query throws; per the spec such an
error aborts the remainder of that connection's statement block only.
-/

namespace Bootstrap

/-- Modelled from the spec: a parsed secret payload, `{ username, password }`
with either field possibly absent (spec section 4.1). -/
structure Payload where
  username : Option String
  password : Option String
deriving DecidableEq, Repr

/-- Modelled from the spec: a raw record returned by the secrets store; the
`SecretString` body may be absent or unparseable, modelled as `none`
(spec sections 4.1 and 6). -/
structure RawSecret where
  secretString : Option Payload
deriving DecidableEq, Repr

/-- Modelled from the spec: a fully resolved credential, both fields required
(spec section 3). -/
structure Credential where
  username : String
  password : String
deriving DecidableEq, Repr

/-- Modelled from the spec: a resolved CDC credential; only the username is
required for the CDC block to run (spec sections 4.1 and 8). -/
structure CdcCredential where
  username : String
  password : Option String
deriving DecidableEq, Repr

/-- Modelled from the spec: the environment-sourced configuration
(spec section 6). -/
structure Env where
  masterUserSecret : String
  appUserSecret : String
  cdcUserSecret : Option String
  appDatabaseName : Option String
  appSchemaName : Option String
  rdsHost : String
deriving DecidableEq, Repr

/-- Modelled from the spec: the three connection roles (spec section 3). -/
inductive ConnRole where
  | admin
  | service
  | cdc
deriving DecidableEq, Repr

/-- Modelled from the spec: the option object passed when opening a
connection (spec section 4.3). -/
structure ConnOptions where
  user : String
  password : String
  host : String
  port : Nat
  database : Option String
deriving DecidableEq, Repr

/-- Modelled from the spec: the SQL statements the bootstrap routine issues,
as a structured grammar; `render` below gives each one's exact text
(spec sections 4.4, 4.5 and 4.6). -/
inductive Sql where
  | dbExistsCheck (db : String)
  | createDatabase (db : String)
  | roleExistsCheck (u : String)
  | createUser (u : String) (pw : String)
  | createSchemaIfNotExists (schema : String)
  | createExtPgTrgm (schema : String)
  | createExtIntarray (schema : String)
  | grantConnect (db : String) (u : String)
  | grantCreate (db : String) (u : String)
  | revokeCreatePublic
  | revokeAllDatabase (db : String)
  | grantUsageCreate (schema : String) (u : String)
  | alterDefaultPrivileges (schema : String) (u : String)
  | grantAllPrivileges (db : String) (u : String)
  | alterDatabaseOwner (db : String) (u : String)
  | grantSelectAllTables (schema : String) (u : String)
  | grantRdsReplication (u : String)
  | createPublication
deriving DecidableEq, Repr

/-- Modelled from the spec: the exact SQL text of each statement, as given
verbatim in spec sections 4.4, 4.5 and 4.6 (apostrophes written `\x27`). -/
def Sql.render : Sql → String
  | .dbExistsCheck db =>
      "SELECT exists(SELECT FROM pg_catalog.pg_database WHERE lower(datname) = lower(\x27"
        ++ db ++ "\x27))"
  | .createDatabase db => "CREATE DATABASE " ++ db
  | .roleExistsCheck u => "SELECT exists(SELECT FROM pg_roles WHERE rolname=\x27" ++ u ++ "\x27)"
  | .createUser u pw => "CREATE USER " ++ u ++ " WITH ENCRYPTED PASSWORD \x27" ++ pw ++ "\x27"
  | .createSchemaIfNotExists schema => "CREATE SCHEMA IF NOT EXISTS " ++ schema
  | .createExtPgTrgm schema =>
      "CREATE EXTENSION IF NOT EXISTS pg_trgm SCHEMA " ++ schema ++ " CASCADE"
  | .createExtIntarray schema =>
      "CREATE EXTENSION IF NOT EXISTS intarray SCHEMA " ++ schema ++ " CASCADE"
  | .grantConnect db u => "GRANT CONNECT ON DATABASE " ++ db ++ " TO " ++ u
  | .grantCreate db u => "GRANT CREATE ON DATABASE " ++ db ++ " TO " ++ u
  | .revokeCreatePublic => "REVOKE CREATE ON SCHEMA public FROM PUBLIC"
  | .revokeAllDatabase db => "REVOKE ALL ON DATABASE " ++ db ++ " FROM PUBLIC"
  | .grantUsageCreate schema u => "GRANT USAGE, CREATE ON SCHEMA " ++ schema ++ " TO " ++ u
  | .alterDefaultPrivileges schema u =>
      "ALTER DEFAULT PRIVILEGES IN SCHEMA " ++ schema
        ++ " GRANT ALL PRIVILEGES ON TABLES TO " ++ u
  | .grantAllPrivileges db u => "GRANT ALL PRIVILEGES on DATABASE " ++ db ++ " to " ++ u
  | .alterDatabaseOwner db u => "ALTER DATABASE " ++ db ++ " OWNER TO " ++ u
  | .grantSelectAllTables schema u =>
      "GRANT SELECT ON ALL TABLES IN SCHEMA " ++ schema ++ " TO " ++ u
  | .grantRdsReplication u => "GRANT rds_replication, rds_superuser TO " ++ u
  | .createPublication => "CREATE PUBLICATION IF NOT EXISTS cdc_publication FOR ALL TABLES"

/-- An externally observable event of a run: opening a connection, issuing a
statement on it, or closing it. -/
inductive Event where
  | connect (role : ConnRole) (opts : ConnOptions)
  | query (role : ConnRole) (stmt : Sql)
  | close (role : ConnRole)
deriving DecidableEq, Repr

/-- The connection role an event belongs to. -/
def Event.role : Event → ConnRole
  | .connect r _ => r
  | .query r _ => r
  | .close r => r

/-- The oracle for one run: which existence checks report `true`
(spec section 3, ExistenceFlag) and at which statement index, if any, each
connection's query throws (spec sections 5 and 7: such an error is caught in
that connection's scope and aborts only the rest of that block). -/
structure DbWorld where
  databaseExists : Bool
  serviceUserExists : Bool
  cdcUserExists : Bool
  adminFailAt : Option Nat
  serviceFailAt : Option Nat
  cdcFailAt : Option Nat
deriving DecidableEq, Repr

/-- Modelled from the spec: resolve an administrative or service credential;
both `username` and `password` are required, anything less is a fatal
configuration error (spec sections 4.1 and 7). -/
def resolveCred (s : RawSecret) : Option Credential :=
  match s.secretString with
  | none => none
  | some p =>
    match p.username, p.password with
    | some u, some pw => some (Credential.mk u pw)
    | _, _ => none

/-- Modelled from the spec: resolve the CDC credential; CDC provisioning is
skipped when no identifier is configured, when the fetched secret has no
parseable payload, or when the payload lacks a `username`
(spec section 4.1). -/
def resolveCdcCred (env : Env) (store : String → RawSecret) : Option CdcCredential :=
  match env.cdcUserSecret with
  | none => none
  | some sid =>
    match (store sid).secretString with
    | none => none
    | some p =>
      match p.username with
      | none => none
      | some u => some (CdcCredential.mk u p.password)

/-- Modelled from the spec: drop a suffix from a string when present
(spec section 4.2, `serviceUsername.removeSuffix "_user"`). -/
def removeSuffix (s : String) (suffix : String) : String :=
  let n := s.data.length - suffix.data.length
  if s.data.drop n = suffix.data then String.mk (s.data.take n) else s

/-- Modelled from the spec: the derived database name
(spec section 4.2). -/
def databaseNameOf (env : Env) (serviceUsername : String) : String :=
  env.appDatabaseName.getD (removeSuffix serviceUsername ("_user"))

/-- Modelled from the spec: the derived schema name (spec section 4.2). -/
def schemaNameOf (env : Env) (serviceUsername : String) : String :=
  env.appSchemaName.getD serviceUsername

/-- Rendering of an optional string interpolated into SQL text: an absent
value renders the way the host language prints an undefined value. -/
def optText (o : Option String) : String :=
  o.getD ("undefined")

/-- Modelled from the spec: connection options for the administrative
connection — administrative credentials, configured host, fixed port 5432,
and no `database` field (spec section 4.3). -/
def adminConnOptions (admin : Credential) (env : Env) : ConnOptions :=
  ConnOptions.mk admin.username admin.password env.rdsHost 5432 none

/-- Modelled from the spec: connection options for the service- and
CDC-scoped connections — administrative credentials, configured host, fixed
port 5432, and `database` set to the derived database name
(spec section 4.3). -/
def dbConnOptions (admin : Credential) (env : Env) (db : String) : ConnOptions :=
  ConnOptions.mk admin.username admin.password env.rdsHost 5432 (some db)

/-- Modelled from the spec: the statement sequence of the administrative
provisioner, each creation gated by its existence check
(spec section 4.4). -/
def adminStmts (db : String) (svc : Credential) (cdcCred : Option CdcCredential)
    (w : DbWorld) : List Sql :=
  [Sql.dbExistsCheck db]
    ++ (if w.databaseExists then [] else [Sql.createDatabase db])
    ++ [Sql.roleExistsCheck svc.username]
    ++ (if w.serviceUserExists then [] else [Sql.createUser svc.username svc.password])
    ++ (match cdcCred with
        | none => []
        | some c =>
          [Sql.roleExistsCheck c.username]
            ++ (if w.cdcUserExists then [] else [Sql.createUser c.username (optText c.password)]))

/-- Modelled from the spec: the fixed ordered twelve-statement sequence of the
service grant sequencer, including the verbatim repeat of
`CREATE SCHEMA IF NOT EXISTS` at position 6 (spec section 4.5). -/
def serviceStmts (db : String) (schema : String) (svcUser : String) : List Sql :=
  [Sql.createSchemaIfNotExists schema,
   Sql.createExtPgTrgm schema,
   Sql.createExtIntarray schema,
   Sql.grantConnect db svcUser,
   Sql.grantCreate db svcUser,
   Sql.createSchemaIfNotExists schema,
   Sql.revokeCreatePublic,
   Sql.revokeAllDatabase db,
   Sql.grantUsageCreate schema svcUser,
   Sql.alterDefaultPrivileges schema svcUser,
   Sql.grantAllPrivileges db svcUser,
   Sql.alterDatabaseOwner db svcUser]

/-- Modelled from the spec: the four-statement sequence of the CDC grant
sequencer (spec section 4.6). -/
def cdcStmts (db : String) (schema : String) (cdcUser : String) : List Sql :=
  [Sql.grantConnect db cdcUser,
   Sql.grantSelectAllTables schema cdcUser,
   Sql.grantRdsReplication cdcUser,
   Sql.createPublication]

/-- The statements actually issued on a connection whose query throws at
index `failAt`: the failing statement is still issued (the call happens and
then throws); the rest of the block is skipped by the catch
(spec sections 5 and 7). -/
def truncateAt (stmts : List Sql) (failAt : Option Nat) : List Sql :=
  match failAt with
  | none => stmts
  | some k => stmts.take (k + 1)

/-- Modelled from the spec: one connection-scoped block — open, issue the
statements (up to a possible failure), and close on every exit path
(spec section 5). -/
def runBlock (role : ConnRole) (opts : ConnOptions) (stmts : List Sql)
    (failAt : Option Nat) : List Event :=
  Event.connect role opts :: ((truncateAt stmts failAt).map (Event.query role)
    ++ [Event.close role])

/-- Modelled from the spec: the success message (spec section 4.7). -/
def bootstrapMessage (db : String) : String :=
  "Database \x27" ++ db ++ "\x27 usernames are ready for use!"

/-- The observable outcome of a run in which configuration succeeded: the
event trace and the returned message. -/
structure RunResult where
  trace : List Event
  message : String
deriving DecidableEq, Repr

/-- Modelled from the spec: the whole provisioning run once the
administrative and service credentials are resolved — administrative block,
then service block, then the CDC block when a CDC credential was resolved,
then the constant success message (spec sections 2, 4 and 5). -/
def runProvisioning (env : Env) (admin : Credential) (svc : Credential)
    (cdcCred : Option CdcCredential) (w : DbWorld) : RunResult :=
  let db := databaseNameOf env svc.username
  let schema := schemaNameOf env svc.username
  let adminTrace :=
    runBlock ConnRole.admin (adminConnOptions admin env)
      (adminStmts db svc cdcCred w) w.adminFailAt
  let svcTrace :=
    runBlock ConnRole.service (dbConnOptions admin env db)
      (serviceStmts db schema svc.username) w.serviceFailAt
  let cdcTrace :=
    match cdcCred with
    | none => []
    | some c =>
      runBlock ConnRole.cdc (dbConnOptions admin env db)
        (cdcStmts db schema c.username) w.cdcFailAt
  RunResult.mk (adminTrace ++ svcTrace ++ cdcTrace) (bootstrapMessage db)

/-- Modelled from the spec: the exported handler — resolve the secrets; a
missing administrative or service credential is a fatal configuration error,
otherwise the run always completes with the success message
(spec sections 4 and 7). -/
def handler (env : Env) (store : String → RawSecret) (w : DbWorld) :
    Except Unit RunResult :=
  match resolveCred (store env.masterUserSecret),
        resolveCred (store env.appUserSecret) with
  | some admin, some svc =>
    Except.ok (runProvisioning env admin svc (resolveCdcCred env store) w)
  | _, _ => Except.error ()

/-- The statements issued on the connection of role `r`, in order. -/
def queriesOf (r : ConnRole) (tr : List Event) : List Sql :=
  tr.filterMap fun e =>
    match e with
    | Event.query r2 stmt => if r2 = r then some stmt else none
    | _ => none

/-- The option objects of the openings of connections of role `r`. -/
def connectsOf (r : ConnRole) (tr : List Event) : List ConnOptions :=
  tr.filterMap fun e =>
    match e with
    | Event.connect r2 o => if r2 = r then some o else none
    | _ => none

/-- The number of close events of the connection of role `r`. -/
def closeCount (r : ConnRole) (tr : List Event) : Nat :=
  tr.countP fun e => decide (e = Event.close r)

/-- The events belonging to the connection of role `r`. -/
def roleEvents (r : ConnRole) (tr : List Event) : List Event :=
  tr.filter fun e => decide (e.role = r)

/-- Statements whose SQL text is a `CREATE` statement. -/
def Sql.isCreate : Sql → Bool
  | .createDatabase _ => true
  | .createUser _ _ => true
  | .createSchemaIfNotExists _ => true
  | .createExtPgTrgm _ => true
  | .createExtIntarray _ => true
  | .createPublication => true
  | _ => false

/-- Concrete secrets store for the closed witness checks, mirroring the
fixtures of the repository's test suites. -/
def testStore : String → RawSecret := fun sid =>
  if sid = "master-test" then
    RawSecret.mk (some (Payload.mk (some ("admin_user")) (some ("admin_password"))))
  else if sid = "app-test" then
    RawSecret.mk (some (Payload.mk (some ("myapp_user")) (some ("myapp_password"))))
  else if sid = "cdc-test" then
    RawSecret.mk (some (Payload.mk (some ("cdc_user")) (some ("cdc_password"))))
  else if sid = "cdc-nopw" then
    RawSecret.mk (some (Payload.mk (some ("partial_user")) none))
  else if sid = "cdc-nouser" then
    RawSecret.mk (some (Payload.mk none (some ("only-pass"))))
  else RawSecret.mk none

/-- Concrete environment: explicit database and schema names, no CDC. -/
def testEnv : Env :=
  Env.mk ("master-test") ("app-test") none (some ("app_database")) (some ("app_schema"))
    ("example")

/-- Concrete environment with a CDC secret configured. -/
def testEnvCdc : Env :=
  Env.mk ("master-test") ("app-test") (some ("cdc-test")) (some ("app_database"))
    (some ("app_schema")) ("example")

/-- Concrete environment whose CDC secret has a username but no password. -/
def testEnvCdcNoPw : Env :=
  Env.mk ("master-test") ("app-test") (some ("cdc-nopw")) (some ("app_database"))
    (some ("app_schema")) ("example")

/-- Concrete environment whose CDC secret id resolves to a record without a
SecretString. -/
def testEnvCdcNoBody : Env :=
  Env.mk ("master-test") ("app-test") (some ("cdc-absent")) (some ("app_database"))
    (some ("app_schema")) ("example")

/-- Concrete environment with no explicit database or schema names. -/
def testEnvDerived : Env :=
  Env.mk ("master-test") ("app-test") none none none ("example")

/-- The administrative credential of the concrete store. -/
def adminCred : Credential := Credential.mk ("admin_user") ("admin_password")

/-- The service credential of the concrete store. -/
def svcCred : Credential := Credential.mk ("myapp_user") ("myapp_password")

/-- World in which nothing exists yet and no statement fails. -/
def calmWorld : DbWorld := DbWorld.mk false false false none none none

/-- World in which the database and every role already exist. -/
def allExistWorld : DbWorld := DbWorld.mk true true true none none none

/-- World in which each connection's query throws early. -/
def failWorld : DbWorld := DbWorld.mk false false false (some 0) (some 2) (some 1)

theorem handler_eq (env : Env) (store : String → RawSecret) (w : DbWorld)
    (admin svc : Credential)
    (hm : resolveCred (store env.masterUserSecret) = some admin)
    (hs : resolveCred (store env.appUserSecret) = some svc) :
    handler env store w =
      Except.ok (runProvisioning env admin svc (resolveCdcCred env store) w) := by
  unfold handler
  rw [hm, hs]

theorem queriesOf_append (r : ConnRole) (t1 t2 : List Event) :
    queriesOf r (t1 ++ t2) = queriesOf r t1 ++ queriesOf r t2 := by
  simp [queriesOf]

theorem connectsOf_append (r : ConnRole) (t1 t2 : List Event) :
    connectsOf r (t1 ++ t2) = connectsOf r t1 ++ connectsOf r t2 := by
  simp [connectsOf]

theorem closeCount_append (r : ConnRole) (t1 t2 : List Event) :
    closeCount r (t1 ++ t2) = closeCount r t1 + closeCount r t2 := by
  simp [closeCount]

theorem roleEvents_append (r : ConnRole) (t1 t2 : List Event) :
    roleEvents r (t1 ++ t2) = roleEvents r t1 ++ roleEvents r t2 := by
  simp [roleEvents]

theorem runBlock_split (r : ConnRole) (opts : ConnOptions)
    (stmts : List Sql) (failAt : Option Nat) :
    runBlock r opts stmts failAt =
      [Event.connect r opts] ++ ((truncateAt stmts failAt).map (Event.query r)
        ++ [Event.close r]) := rfl

theorem queriesOf_map_query_self (r : ConnRole) (l : List Sql) :
    queriesOf r (l.map (Event.query r)) = l := by
  induction l with
  | nil => rfl
  | cons a t ih => simpa [queriesOf, List.filterMap_cons] using ih

theorem queriesOf_map_query_ne (r r' : ConnRole) (h : r' ≠ r) (l : List Sql) :
    queriesOf r (l.map (Event.query r')) = [] := by
  induction l with
  | nil => rfl
  | cons a t ih => simpa [queriesOf, List.filterMap_cons, h] using ih

theorem queriesOf_runBlock (r r' : ConnRole) (opts : ConnOptions)
    (stmts : List Sql) (failAt : Option Nat) :
    queriesOf r (runBlock r' opts stmts failAt) =
      if r' = r then truncateAt stmts failAt else [] := by
  rw [runBlock_split, queriesOf_append, queriesOf_append]
  by_cases h : r' = r
  · rw [if_pos h, h, queriesOf_map_query_self]
    simp [queriesOf]
  · rw [if_neg h, queriesOf_map_query_ne r r' h]
    simp [queriesOf]

theorem connectsOf_map_query (r r' : ConnRole) (l : List Sql) :
    connectsOf r (l.map (Event.query r')) = [] := by
  induction l with
  | nil => rfl
  | cons a t ih => simpa [connectsOf, List.filterMap_cons] using ih

theorem connectsOf_runBlock (r r' : ConnRole) (opts : ConnOptions)
    (stmts : List Sql) (failAt : Option Nat) :
    connectsOf r (runBlock r' opts stmts failAt) =
      if r' = r then [opts] else [] := by
  rw [runBlock_split, connectsOf_append, connectsOf_append, connectsOf_map_query]
  by_cases h : r' = r
  · rw [if_pos h, h]
    simp [connectsOf]
  · rw [if_neg h]
    simp [connectsOf, h]

theorem closeCount_map_query (r r' : ConnRole) (l : List Sql) :
    closeCount r (l.map (Event.query r')) = 0 := by
  induction l with
  | nil => rfl
  | cons a t ih => simpa [closeCount, List.countP_cons] using ih

theorem closeCount_runBlock (r r' : ConnRole) (opts : ConnOptions)
    (stmts : List Sql) (failAt : Option Nat) :
    closeCount r (runBlock r' opts stmts failAt) =
      if r' = r then 1 else 0 := by
  rw [runBlock_split, closeCount_append, closeCount_append, closeCount_map_query]
  by_cases h : r' = r
  · rw [if_pos h, h]
    simp [closeCount]
  · rw [if_neg h]
    simp [closeCount, h]

theorem roleEvents_map_query (r r' : ConnRole) (h : r' ≠ r) (l : List Sql) :
    roleEvents r (l.map (Event.query r')) = [] := by
  induction l with
  | nil => rfl
  | cons a t ih => simpa [roleEvents, List.filter_cons, Event.role, h] using ih

theorem roleEvents_runBlock_ne (r r' : ConnRole) (opts : ConnOptions)
    (stmts : List Sql) (failAt : Option Nat) (h : r' ≠ r) :
    roleEvents r (runBlock r' opts stmts failAt) = [] := by
  rw [runBlock_split, roleEvents_append, roleEvents_append, roleEvents_map_query r r' h]
  simp [roleEvents, Event.role, h]

theorem roleEvents_runBlock_self (r : ConnRole) (opts : ConnOptions)
    (stmts : List Sql) (failAt : Option Nat) :
    roleEvents r (runBlock r opts stmts failAt) ≠ [] := by
  simp [roleEvents, runBlock, Event.role, List.filter_cons]

theorem message_run (env : Env) (admin svc : Credential)
    (cdcCred : Option CdcCredential) (w : DbWorld) :
    (runProvisioning env admin svc cdcCred w).message =
      bootstrapMessage (databaseNameOf env svc.username) := rfl

theorem queriesOf_admin_run (env : Env) (admin svc : Credential)
    (cdcCred : Option CdcCredential) (w : DbWorld) :
    queriesOf ConnRole.admin (runProvisioning env admin svc cdcCred w).trace =
      truncateAt (adminStmts (databaseNameOf env svc.username) svc cdcCred w)
        w.adminFailAt := by
  cases cdcCred <;>
    simp [runProvisioning, queriesOf_append, queriesOf_runBlock]

theorem queriesOf_service_run (env : Env) (admin svc : Credential)
    (cdcCred : Option CdcCredential) (w : DbWorld) :
    queriesOf ConnRole.service (runProvisioning env admin svc cdcCred w).trace =
      truncateAt
        (serviceStmts (databaseNameOf env svc.username)
          (schemaNameOf env svc.username) svc.username)
        w.serviceFailAt := by
  cases cdcCred <;>
    simp [runProvisioning, queriesOf_append, queriesOf_runBlock]

theorem queriesOf_cdc_run_none (env : Env) (admin svc : Credential) (w : DbWorld) :
    queriesOf ConnRole.cdc (runProvisioning env admin svc none w).trace = [] := by
  simp [runProvisioning, queriesOf_append, queriesOf_runBlock]

theorem queriesOf_cdc_run_some (env : Env) (admin svc : Credential)
    (c : CdcCredential) (w : DbWorld) :
    queriesOf ConnRole.cdc (runProvisioning env admin svc (some c) w).trace =
      truncateAt
        (cdcStmts (databaseNameOf env svc.username)
          (schemaNameOf env svc.username) c.username)
        w.cdcFailAt := by
  simp [runProvisioning, queriesOf_append, queriesOf_runBlock]

theorem connectsOf_admin_run (env : Env) (admin svc : Credential)
    (cdcCred : Option CdcCredential) (w : DbWorld) :
    connectsOf ConnRole.admin (runProvisioning env admin svc cdcCred w).trace =
      [adminConnOptions admin env] := by
  cases cdcCred <;>
    simp [runProvisioning, connectsOf_append, connectsOf_runBlock]

theorem connectsOf_service_run (env : Env) (admin svc : Credential)
    (cdcCred : Option CdcCredential) (w : DbWorld) :
    connectsOf ConnRole.service (runProvisioning env admin svc cdcCred w).trace =
      [dbConnOptions admin env (databaseNameOf env svc.username)] := by
  cases cdcCred <;>
    simp [runProvisioning, connectsOf_append, connectsOf_runBlock]

theorem connectsOf_cdc_run (env : Env) (admin svc : Credential)
    (cdcCred : Option CdcCredential) (w : DbWorld) :
    connectsOf ConnRole.cdc (runProvisioning env admin svc cdcCred w).trace =
      match cdcCred with
      | none => []
      | some _ => [dbConnOptions admin env (databaseNameOf env svc.username)] := by
  cases cdcCred <;>
    simp [runProvisioning, connectsOf_append, connectsOf_runBlock]

theorem closeCount_admin_run (env : Env) (admin svc : Credential)
    (cdcCred : Option CdcCredential) (w : DbWorld) :
    closeCount ConnRole.admin (runProvisioning env admin svc cdcCred w).trace = 1 := by
  cases cdcCred <;>
    simp [runProvisioning, closeCount_append, closeCount_runBlock]

theorem closeCount_service_run (env : Env) (admin svc : Credential)
    (cdcCred : Option CdcCredential) (w : DbWorld) :
    closeCount ConnRole.service (runProvisioning env admin svc cdcCred w).trace = 1 := by
  cases cdcCred <;>
    simp [runProvisioning, closeCount_append, closeCount_runBlock]

theorem closeCount_cdc_run (env : Env) (admin svc : Credential)
    (cdcCred : Option CdcCredential) (w : DbWorld) :
    closeCount ConnRole.cdc (runProvisioning env admin svc cdcCred w).trace =
      match cdcCred with
      | none => 0
      | some _ => 1 := by
  cases cdcCred <;>
    simp [runProvisioning, closeCount_append, closeCount_runBlock]

theorem roleEvents_cdc_run_none (env : Env) (admin svc : Credential) (w : DbWorld) :
    roleEvents ConnRole.cdc (runProvisioning env admin svc none w).trace = [] := by
  simp [runProvisioning, roleEvents_append]
  constructor
  · exact roleEvents_runBlock_ne _ _ _ _ _ (by intro h; cases h)
  · exact roleEvents_runBlock_ne _ _ _ _ _ (by intro h; cases h)

theorem roleEvents_cdc_run_some (env : Env) (admin svc : Credential)
    (c : CdcCredential) (w : DbWorld) :
    roleEvents ConnRole.cdc (runProvisioning env admin svc (some c) w).trace ≠ [] := by
  simp only [runProvisioning, roleEvents_append]
  intro h
  rcases List.append_eq_nil.mp h with ⟨h1, h2⟩
  exact roleEvents_runBlock_self ConnRole.cdc _ _ _ h2

theorem roleEvents_service_run (env : Env) (admin svc : Credential)
    (cdcCred : Option CdcCredential) (w : DbWorld) :
    roleEvents ConnRole.service (runProvisioning env admin svc cdcCred w).trace ≠ [] := by
  simp only [runProvisioning, roleEvents_append]
  intro h
  rcases List.append_eq_nil.mp h with ⟨h1, h2⟩
  rcases List.append_eq_nil.mp h1 with ⟨h3, h4⟩
  exact roleEvents_runBlock_self ConnRole.service _ _ _ h4

theorem resolveCdcCred_isSome_iff (env : Env) (store : String → RawSecret) :
    (resolveCdcCred env store).isSome = true ↔
      ∃ sid p u, env.cdcUserSecret = some sid ∧ (store sid).secretString = some p ∧
        p.username = some u := by
  cases hsid : env.cdcUserSecret with
  | none => simp [resolveCdcCred, hsid]
  | some sid =>
    cases hss : (store sid).secretString with
    | none => simp [resolveCdcCred, hsid, hss]
    | some p =>
      cases hu : p.username with
      | none => simp [resolveCdcCred, hsid, hss, hu]
      | some u => simp [resolveCdcCred, hsid, hss, hu]

/-- C2: whenever the administrative and service secrets resolve successfully,
the handler resolves — it does not throw — and its result carries exactly the
message `Database '{databaseName}' usernames are ready for use!` with the
derived database name interpolated, regardless of which statements succeeded,
failed or were skipped (the theorem quantifies over every `DbWorld`). -/
theorem handler_always_ok_with_message (env : Env) (store : String → RawSecret)
    (w : DbWorld) (admin svc : Credential)
    (hm : resolveCred (store env.masterUserSecret) = some admin)
    (hs : resolveCred (store env.appUserSecret) = some svc) :
    ∃ res, handler env store w = Except.ok res ∧
      res.message = "Database \x27" ++ databaseNameOf env svc.username
        ++ "\x27 usernames are ready for use!" :=
  ⟨runProvisioning env admin svc (resolveCdcCred env store) w,
    handler_eq env store w admin svc hm hs, rfl⟩

/-- C2 witness: a concrete run in which every connection's query throws still
returns the success message. -/
theorem handler_always_ok_with_message_witness :
    resolveCred (testStore testEnv.masterUserSecret) = some adminCred ∧
    resolveCred (testStore testEnv.appUserSecret) = some svcCred ∧
    ∃ res, handler testEnv testStore failWorld = Except.ok res ∧
      res.message = "Database \x27" ++ databaseNameOf testEnv svcCred.username
        ++ "\x27 usernames are ready for use!" :=
  ⟨by decide, by decide,
    handler_always_ok_with_message testEnv testStore failWorld adminCred svcCred
      (by decide) (by decide)⟩

/-- C1: the CDC block executes — there is any CDC-connection activity at all
in the trace — exactly when a CDC secret identifier is configured, its fetched
record has a SecretString, and the parsed payload has a username; if any of
the three is absent there is no CDC-connection activity whatsoever. -/
theorem cdc_gating (env : Env) (store : String → RawSecret) (w : DbWorld)
    (admin svc : Credential)
    (hm : resolveCred (store env.masterUserSecret) = some admin)
    (hs : resolveCred (store env.appUserSecret) = some svc) :
    ∃ res, handler env store w = Except.ok res ∧
      (roleEvents ConnRole.cdc res.trace ≠ [] ↔
        ∃ sid p u, env.cdcUserSecret = some sid ∧ (store sid).secretString = some p ∧
          p.username = some u) := by
  refine ⟨_, handler_eq env store w admin svc hm hs, ?_⟩
  rw [← resolveCdcCred_isSome_iff]
  cases hc : resolveCdcCred env store with
  | none => simp [roleEvents_cdc_run_none]
  | some c => simp [roleEvents_cdc_run_some]

/-- C1 witness: with a CDC secret configured whose payload has a username,
the trace has CDC activity; the hypotheses are discharged concretely. -/
theorem cdc_gating_witness :
    resolveCred (testStore testEnvCdc.masterUserSecret) = some adminCred ∧
    resolveCred (testStore testEnvCdc.appUserSecret) = some svcCred ∧
    ∃ res, handler testEnvCdc testStore calmWorld = Except.ok res ∧
      (roleEvents ConnRole.cdc res.trace ≠ [] ↔
        ∃ sid p u, testEnvCdc.cdcUserSecret = some sid ∧
          (testStore sid).secretString = some p ∧ p.username = some u) :=
  ⟨by decide, by decide,
    cdc_gating testEnvCdc testStore calmWorld adminCred svcCred (by decide) (by decide)⟩

/-- C3: when `APP_DATABASE_NAME` is unset the database name is the service
username with the `_user` suffix removed, and when `APP_SCHEMA_NAME` is unset
the schema name is the service username unchanged; configured values are used
verbatim; for username `myapp_user` the fallbacks are `myapp` and
`myapp_user`; and the derived names are used in the result message, the
service connection's options and the interpolated service SQL sequence. -/
theorem naming_derivation (env : Env) (store : String → RawSecret) (w : DbWorld)
    (admin svc : Credential)
    (hm : resolveCred (store env.masterUserSecret) = some admin)
    (hs : resolveCred (store env.appUserSecret) = some svc) :
    (env.appDatabaseName = none →
      databaseNameOf env svc.username = removeSuffix svc.username ("_user")) ∧
    (env.appSchemaName = none → schemaNameOf env svc.username = svc.username) ∧
    (∀ d, env.appDatabaseName = some d → databaseNameOf env svc.username = d) ∧
    (∀ sc, env.appSchemaName = some sc → schemaNameOf env svc.username = sc) ∧
    removeSuffix ("myapp_user") ("_user") = "myapp" ∧
    ∃ res, handler env store w = Except.ok res ∧
      res.message = bootstrapMessage (databaseNameOf env svc.username) ∧
      connectsOf ConnRole.service res.trace =
        [dbConnOptions admin env (databaseNameOf env svc.username)] ∧
      (∀ c, resolveCdcCred env store = some c →
        connectsOf ConnRole.cdc res.trace =
          [dbConnOptions admin env (databaseNameOf env svc.username)]) ∧
      (w.serviceFailAt = none →
        queriesOf ConnRole.service res.trace =
          serviceStmts (databaseNameOf env svc.username)
            (schemaNameOf env svc.username) svc.username) := by
  refine ⟨fun h => by simp [databaseNameOf, h],
    fun h => by simp [schemaNameOf, h],
    fun d h => by simp [databaseNameOf, h],
    fun sc h => by simp [schemaNameOf, h],
    by decide,
    _, handler_eq env store w admin svc hm hs, message_run env admin svc _ w,
    connectsOf_service_run env admin svc _ w, ?_, ?_⟩
  · intro c hc
    rw [connectsOf_cdc_run, hc]
  · intro hok
    rw [queriesOf_service_run, hok]
    rfl

/-- C3 witness: with both names unset and service username `myapp_user`, the
derived names are `myapp` and `myapp_user` and they reach message, connection
options and SQL. -/
theorem naming_derivation_witness :
    resolveCred (testStore testEnvDerived.masterUserSecret) = some adminCred ∧
    resolveCred (testStore testEnvDerived.appUserSecret) = some svcCred ∧
    databaseNameOf testEnvDerived svcCred.username = "myapp" ∧
    schemaNameOf testEnvDerived svcCred.username = "myapp_user" ∧
    ((testEnvDerived.appDatabaseName = none →
      databaseNameOf testEnvDerived svcCred.username =
        removeSuffix svcCred.username ("_user")) ∧
    (testEnvDerived.appSchemaName = none →
      schemaNameOf testEnvDerived svcCred.username = svcCred.username) ∧
    (∀ d, testEnvDerived.appDatabaseName = some d →
      databaseNameOf testEnvDerived svcCred.username = d) ∧
    (∀ sc, testEnvDerived.appSchemaName = some sc →
      schemaNameOf testEnvDerived svcCred.username = sc) ∧
    removeSuffix ("myapp_user") ("_user") = "myapp" ∧
    ∃ res, handler testEnvDerived testStore calmWorld = Except.ok res ∧
      res.message = bootstrapMessage (databaseNameOf testEnvDerived svcCred.username) ∧
      connectsOf ConnRole.service res.trace =
        [dbConnOptions adminCred testEnvDerived
          (databaseNameOf testEnvDerived svcCred.username)] ∧
      (∀ c, resolveCdcCred testEnvDerived testStore = some c →
        connectsOf ConnRole.cdc res.trace =
          [dbConnOptions adminCred testEnvDerived
            (databaseNameOf testEnvDerived svcCred.username)]) ∧
      (calmWorld.serviceFailAt = none →
        queriesOf ConnRole.service res.trace =
          serviceStmts (databaseNameOf testEnvDerived svcCred.username)
            (schemaNameOf testEnvDerived svcCred.username) svcCred.username)) :=
  ⟨by decide, by decide, by decide, by decide,
    naming_derivation testEnvDerived testStore calmWorld adminCred svcCred
      (by decide) (by decide)⟩

/-- C4: on every run whose service-connection statements all succeed, the
service-scoped connection issues exactly the twelve statements of spec
section 4.5 in that exact order — including the verbatim repeat of
`CREATE SCHEMA IF NOT EXISTS` at position 6 — with the schema, database and
service-user names interpolated; the list gives each statement's exact text. -/
theorem service_grant_sequence (env : Env) (store : String → RawSecret)
    (w : DbWorld) (admin svc : Credential)
    (hm : resolveCred (store env.masterUserSecret) = some admin)
    (hs : resolveCred (store env.appUserSecret) = some svc)
    (hok : w.serviceFailAt = none) :
    ∃ res, handler env store w = Except.ok res ∧
      (queriesOf ConnRole.service res.trace).map Sql.render =
        ["CREATE SCHEMA IF NOT EXISTS " ++ schemaNameOf env svc.username,
         "CREATE EXTENSION IF NOT EXISTS pg_trgm SCHEMA "
           ++ schemaNameOf env svc.username ++ " CASCADE",
         "CREATE EXTENSION IF NOT EXISTS intarray SCHEMA "
           ++ schemaNameOf env svc.username ++ " CASCADE",
         "GRANT CONNECT ON DATABASE " ++ databaseNameOf env svc.username
           ++ " TO " ++ svc.username,
         "GRANT CREATE ON DATABASE " ++ databaseNameOf env svc.username
           ++ " TO " ++ svc.username,
         "CREATE SCHEMA IF NOT EXISTS " ++ schemaNameOf env svc.username,
         "REVOKE CREATE ON SCHEMA public FROM PUBLIC",
         "REVOKE ALL ON DATABASE " ++ databaseNameOf env svc.username ++ " FROM PUBLIC",
         "GRANT USAGE, CREATE ON SCHEMA " ++ schemaNameOf env svc.username
           ++ " TO " ++ svc.username,
         "ALTER DEFAULT PRIVILEGES IN SCHEMA " ++ schemaNameOf env svc.username
           ++ " GRANT ALL PRIVILEGES ON TABLES TO " ++ svc.username,
         "GRANT ALL PRIVILEGES on DATABASE " ++ databaseNameOf env svc.username
           ++ " to " ++ svc.username,
         "ALTER DATABASE " ++ databaseNameOf env svc.username
           ++ " OWNER TO " ++ svc.username] := by
  refine ⟨_, handler_eq env store w admin svc hm hs, ?_⟩
  rw [queriesOf_service_run, hok]
  rfl

/-- C4 witness: concrete run, exact twelve texts in order. -/
theorem service_grant_sequence_witness :
    resolveCred (testStore testEnv.masterUserSecret) = some adminCred ∧
    resolveCred (testStore testEnv.appUserSecret) = some svcCred ∧
    calmWorld.serviceFailAt = none ∧
    ∃ res, handler testEnv testStore calmWorld = Except.ok res ∧
      (queriesOf ConnRole.service res.trace).map Sql.render =
        ["CREATE SCHEMA IF NOT EXISTS " ++ schemaNameOf testEnv svcCred.username,
         "CREATE EXTENSION IF NOT EXISTS pg_trgm SCHEMA "
           ++ schemaNameOf testEnv svcCred.username ++ " CASCADE",
         "CREATE EXTENSION IF NOT EXISTS intarray SCHEMA "
           ++ schemaNameOf testEnv svcCred.username ++ " CASCADE",
         "GRANT CONNECT ON DATABASE " ++ databaseNameOf testEnv svcCred.username
           ++ " TO " ++ svcCred.username,
         "GRANT CREATE ON DATABASE " ++ databaseNameOf testEnv svcCred.username
           ++ " TO " ++ svcCred.username,
         "CREATE SCHEMA IF NOT EXISTS " ++ schemaNameOf testEnv svcCred.username,
         "REVOKE CREATE ON SCHEMA public FROM PUBLIC",
         "REVOKE ALL ON DATABASE " ++ databaseNameOf testEnv svcCred.username
           ++ " FROM PUBLIC",
         "GRANT USAGE, CREATE ON SCHEMA " ++ schemaNameOf testEnv svcCred.username
           ++ " TO " ++ svcCred.username,
         "ALTER DEFAULT PRIVILEGES IN SCHEMA " ++ schemaNameOf testEnv svcCred.username
           ++ " GRANT ALL PRIVILEGES ON TABLES TO " ++ svcCred.username,
         "GRANT ALL PRIVILEGES on DATABASE " ++ databaseNameOf testEnv svcCred.username
           ++ " to " ++ svcCred.username,
         "ALTER DATABASE " ++ databaseNameOf testEnv svcCred.username
           ++ " OWNER TO " ++ svcCred.username] :=
  ⟨by decide, by decide, rfl,
    service_grant_sequence testEnv testStore calmWorld adminCred svcCred
      (by decide) (by decide) rfl⟩

/-- C8: whenever the CDC block is entered (a CDC credential was resolved) and
its statements do not fail, the CDC-scoped connection issues exactly the four
statements of spec section 4.6 in order, regardless of whether the CDC role
was freshly created or already existed (`w.cdcUserExists` is arbitrary). -/
theorem cdc_grant_sequence (env : Env) (store : String → RawSecret)
    (w : DbWorld) (admin svc : Credential) (c : CdcCredential)
    (hm : resolveCred (store env.masterUserSecret) = some admin)
    (hs : resolveCred (store env.appUserSecret) = some svc)
    (hc : resolveCdcCred env store = some c)
    (hok : w.cdcFailAt = none) :
    ∃ res, handler env store w = Except.ok res ∧
      (queriesOf ConnRole.cdc res.trace).map Sql.render =
        ["GRANT CONNECT ON DATABASE " ++ databaseNameOf env svc.username
           ++ " TO " ++ c.username,
         "GRANT SELECT ON ALL TABLES IN SCHEMA " ++ schemaNameOf env svc.username
           ++ " TO " ++ c.username,
         "GRANT rds_replication, rds_superuser TO " ++ c.username,
         "CREATE PUBLICATION IF NOT EXISTS cdc_publication FOR ALL TABLES"] := by
  refine ⟨_, handler_eq env store w admin svc hm hs, ?_⟩
  rw [hc, queriesOf_cdc_run_some, hok]
  rfl

/-- C8 witness: concrete run with the CDC role already existing — the four
texts are still issued in order. -/
theorem cdc_grant_sequence_witness :
    resolveCred (testStore testEnvCdc.masterUserSecret) = some adminCred ∧
    resolveCred (testStore testEnvCdc.appUserSecret) = some svcCred ∧
    resolveCdcCred testEnvCdc testStore =
      some (CdcCredential.mk ("cdc_user") (some ("cdc_password"))) ∧
    allExistWorld.cdcFailAt = none ∧
    ∃ res, handler testEnvCdc testStore allExistWorld = Except.ok res ∧
      (queriesOf ConnRole.cdc res.trace).map Sql.render =
        ["GRANT CONNECT ON DATABASE " ++ databaseNameOf testEnvCdc svcCred.username
           ++ " TO " ++ (CdcCredential.mk ("cdc_user") (some ("cdc_password"))).username,
         "GRANT SELECT ON ALL TABLES IN SCHEMA " ++ schemaNameOf testEnvCdc svcCred.username
           ++ " TO " ++ (CdcCredential.mk ("cdc_user") (some ("cdc_password"))).username,
         "GRANT rds_replication, rds_superuser TO "
           ++ (CdcCredential.mk ("cdc_user") (some ("cdc_password"))).username,
         "CREATE PUBLICATION IF NOT EXISTS cdc_publication FOR ALL TABLES"] :=
  ⟨by decide, by decide, by decide, rfl,
    cdc_grant_sequence testEnvCdc testStore allExistWorld adminCred svcCred
      (CdcCredential.mk ("cdc_user") (some ("cdc_password")))
      (by decide) (by decide) (by decide) rfl⟩

theorem mem_connectsOf (r : ConnRole) (opts : ConnOptions) (tr : List Event)
    (h : Event.connect r opts ∈ tr) : opts ∈ connectsOf r tr := by
  unfold connectsOf
  exact List.mem_filterMap.mpr ⟨Event.connect r opts, h, by simp⟩

/-- C7: every connection opened during a run uses the administrative username
and password, the configured host and fixed port 5432; the administrative
connection's options have no `database` field while the service and CDC
options set `database` to the derived database name — the service and CDC
roles' own credentials are never used to connect. -/
theorem connections_use_admin_credentials (env : Env) (store : String → RawSecret)
    (w : DbWorld) (admin svc : Credential)
    (hm : resolveCred (store env.masterUserSecret) = some admin)
    (hs : resolveCred (store env.appUserSecret) = some svc) :
    ∃ res, handler env store w = Except.ok res ∧
      ∀ r opts, Event.connect r opts ∈ res.trace →
        opts.user = admin.username ∧ opts.password = admin.password ∧
        opts.host = env.rdsHost ∧ opts.port = 5432 ∧
        opts.database =
          (match r with
           | ConnRole.admin => none
           | _ => some (databaseNameOf env svc.username)) := by
  refine ⟨_, handler_eq env store w admin svc hm hs, ?_⟩
  intro r opts hmem
  have h2 := mem_connectsOf r opts _ hmem
  cases r with
  | admin =>
    rw [connectsOf_admin_run] at h2
    simp at h2
    subst h2
    exact ⟨rfl, rfl, rfl, rfl, rfl⟩
  | service =>
    rw [connectsOf_service_run] at h2
    simp at h2
    subst h2
    exact ⟨rfl, rfl, rfl, rfl, rfl⟩
  | cdc =>
    rw [connectsOf_cdc_run] at h2
    cases hc : resolveCdcCred env store with
    | none =>
      rw [hc] at h2
      simp at h2
    | some c =>
      rw [hc] at h2
      simp at h2
      subst h2
      exact ⟨rfl, rfl, rfl, rfl, rfl⟩

/-- C7 witness: concrete CDC-enabled run; every opened connection carries the
administrative credentials, host `example`, port 5432 and the right
`database` field. -/
theorem connections_use_admin_credentials_witness :
    resolveCred (testStore testEnvCdc.masterUserSecret) = some adminCred ∧
    resolveCred (testStore testEnvCdc.appUserSecret) = some svcCred ∧
    ∃ res, handler testEnvCdc testStore calmWorld = Except.ok res ∧
      ∀ r opts, Event.connect r opts ∈ res.trace →
        opts.user = adminCred.username ∧ opts.password = adminCred.password ∧
        opts.host = testEnvCdc.rdsHost ∧ opts.port = 5432 ∧
        opts.database =
          (match r with
           | ConnRole.admin => none
           | _ => some (databaseNameOf testEnvCdc svcCred.username)) :=
  ⟨by decide, by decide,
    connections_use_admin_credentials testEnvCdc testStore calmWorld adminCred svcCred
      (by decide) (by decide)⟩

/-- C6: for every world — in particular whenever any administrative statement
throws — the service block still executes, the CDC block still executes when
a CDC credential was resolved, the final success message is still produced,
and every opened connection is closed exactly once (a never-opened CDC
connection is closed zero times). -/
theorem failure_isolation (env : Env) (store : String → RawSecret) (w : DbWorld)
    (admin svc : Credential)
    (hm : resolveCred (store env.masterUserSecret) = some admin)
    (hs : resolveCred (store env.appUserSecret) = some svc) :
    ∃ res, handler env store w = Except.ok res ∧
      res.message = bootstrapMessage (databaseNameOf env svc.username) ∧
      roleEvents ConnRole.service res.trace ≠ [] ∧
      (∀ c, resolveCdcCred env store = some c → roleEvents ConnRole.cdc res.trace ≠ []) ∧
      closeCount ConnRole.admin res.trace = 1 ∧
      closeCount ConnRole.service res.trace = 1 ∧
      (∀ c, resolveCdcCred env store = some c → closeCount ConnRole.cdc res.trace = 1) ∧
      (resolveCdcCred env store = none → closeCount ConnRole.cdc res.trace = 0) := by
  refine ⟨_, handler_eq env store w admin svc hm hs, message_run env admin svc _ w,
    roleEvents_service_run env admin svc _ w, ?_, closeCount_admin_run env admin svc _ w,
    closeCount_service_run env admin svc _ w, ?_, ?_⟩
  · intro c hc
    rw [hc]
    exact roleEvents_cdc_run_some env admin svc c w
  · intro c hc
    rw [hc, closeCount_cdc_run]
  · intro hc
    rw [hc, closeCount_cdc_run]

/-- C6 witness: concrete CDC-enabled run in which the administrative query
throws at its first statement, the service query at its third and the CDC
query at its second — the blocks still run and each connection closes once. -/
theorem failure_isolation_witness :
    resolveCred (testStore testEnvCdc.masterUserSecret) = some adminCred ∧
    resolveCred (testStore testEnvCdc.appUserSecret) = some svcCred ∧
    failWorld.adminFailAt = some 0 ∧
    ∃ res, handler testEnvCdc testStore failWorld = Except.ok res ∧
      res.message = bootstrapMessage (databaseNameOf testEnvCdc svcCred.username) ∧
      roleEvents ConnRole.service res.trace ≠ [] ∧
      (∀ c, resolveCdcCred testEnvCdc testStore = some c →
        roleEvents ConnRole.cdc res.trace ≠ []) ∧
      closeCount ConnRole.admin res.trace = 1 ∧
      closeCount ConnRole.service res.trace = 1 ∧
      (∀ c, resolveCdcCred testEnvCdc testStore = some c →
        closeCount ConnRole.cdc res.trace = 1) ∧
      (resolveCdcCred testEnvCdc testStore = none →
        closeCount ConnRole.cdc res.trace = 0) :=
  ⟨by decide, by decide, rfl,
    failure_isolation testEnvCdc testStore failWorld adminCred svcCred
      (by decide) (by decide)⟩

theorem mem_of_mem_truncateAt (q : Sql) (l : List Sql) (f : Option Nat)
    (h : q ∈ truncateAt l f) : q ∈ l := by
  cases f with
  | none => exact h
  | some k => exact List.take_subset _ _ h

/-- C5: with a non-failing administrative block, the administrative query
stream is exactly the existence-gated sequence: each CREATE is present iff
its immediately preceding existence check reported absence; `CREATE DATABASE`
is issued iff the database check reported false, the user creations iff their
role checks reported false (stated for distinct CDC and service usernames,
and unconditionally when CDC is disabled); and when every check reports true
the administrative connection issues no CREATE statement at all. -/
theorem admin_creation_gating (env : Env) (store : String → RawSecret)
    (w : DbWorld) (admin svc : Credential)
    (hm : resolveCred (store env.masterUserSecret) = some admin)
    (hs : resolveCred (store env.appUserSecret) = some svc)
    (hok : w.adminFailAt = none) :
    ∃ res, handler env store w = Except.ok res ∧
      queriesOf ConnRole.admin res.trace =
        [Sql.dbExistsCheck (databaseNameOf env svc.username)]
          ++ (if w.databaseExists then [] else
                [Sql.createDatabase (databaseNameOf env svc.username)])
          ++ [Sql.roleExistsCheck svc.username]
          ++ (if w.serviceUserExists then [] else
                [Sql.createUser svc.username svc.password])
          ++ (match resolveCdcCred env store with
              | none => []
              | some c =>
                [Sql.roleExistsCheck c.username]
                  ++ (if w.cdcUserExists then [] else
                        [Sql.createUser c.username (optText c.password)])) ∧
      (Sql.createDatabase (databaseNameOf env svc.username) ∈
          queriesOf ConnRole.admin res.trace ↔ w.databaseExists = false) ∧
      (resolveCdcCred env store = none →
        (Sql.createUser svc.username svc.password ∈ queriesOf ConnRole.admin res.trace ↔
          w.serviceUserExists = false)) ∧
      (∀ c, resolveCdcCred env store = some c → c.username ≠ svc.username →
        ((Sql.createUser svc.username svc.password ∈ queriesOf ConnRole.admin res.trace ↔
            w.serviceUserExists = false) ∧
         (Sql.createUser c.username (optText c.password) ∈
            queriesOf ConnRole.admin res.trace ↔ w.cdcUserExists = false))) ∧
      (w.databaseExists = true → w.serviceUserExists = true → w.cdcUserExists = true →
        ∀ q ∈ queriesOf ConnRole.admin res.trace, q.isCreate = false) := by
  have hq : queriesOf ConnRole.admin
      (runProvisioning env admin svc (resolveCdcCred env store) w).trace =
      adminStmts (databaseNameOf env svc.username) svc (resolveCdcCred env store) w := by
    rw [queriesOf_admin_run, hok]
    rfl
  refine ⟨_, handler_eq env store w admin svc hm hs, ?_, ?_, ?_, ?_, ?_⟩
  · rw [hq]
    rfl
  · rw [hq]
    cases hdb : w.databaseExists <;> cases hsu : w.serviceUserExists <;>
      cases hcu : w.cdcUserExists <;> cases hcc : resolveCdcCred env store <;>
        simp [adminStmts, hdb, hsu, hcu, hcc]
  · intro hcc
    rw [hq]
    cases hdb : w.databaseExists <;> cases hsu : w.serviceUserExists <;>
      simp [adminStmts, hdb, hsu, hcc]
  · intro c hcc hne
    rw [hq]
    constructor
    · cases hdb : w.databaseExists <;> cases hsu : w.serviceUserExists <;>
        cases hcu : w.cdcUserExists <;>
          simp [adminStmts, hdb, hsu, hcu, hcc, Ne.symm hne, hne]
    · cases hdb : w.databaseExists <;> cases hsu : w.serviceUserExists <;>
        cases hcu : w.cdcUserExists <;>
          simp [adminStmts, hdb, hsu, hcu, hcc, Ne.symm hne, hne]
  · intro hdb hsu hcu q hqmem
    rw [hq] at hqmem
    cases hcc : resolveCdcCred env store <;>
      rw [hcc] at hqmem <;> simp [adminStmts, hdb, hsu, hcu] at hqmem
    · rcases hqmem with rfl | rfl <;> rfl
    · rcases hqmem with rfl | rfl | rfl <;> rfl

/-- C5 witness: concrete CDC-enabled run in which everything already exists —
the stream is checks only, every CREATE membership iff evaluates to false. -/
theorem admin_creation_gating_witness :
    resolveCred (testStore testEnvCdc.masterUserSecret) = some adminCred ∧
    resolveCred (testStore testEnvCdc.appUserSecret) = some svcCred ∧
    allExistWorld.adminFailAt = none ∧
    ∃ res, handler testEnvCdc testStore allExistWorld = Except.ok res ∧
      queriesOf ConnRole.admin res.trace =
        [Sql.dbExistsCheck (databaseNameOf testEnvCdc svcCred.username)]
          ++ (if allExistWorld.databaseExists then [] else
                [Sql.createDatabase (databaseNameOf testEnvCdc svcCred.username)])
          ++ [Sql.roleExistsCheck svcCred.username]
          ++ (if allExistWorld.serviceUserExists then [] else
                [Sql.createUser svcCred.username svcCred.password])
          ++ (match resolveCdcCred testEnvCdc testStore with
              | none => []
              | some c =>
                [Sql.roleExistsCheck c.username]
                  ++ (if allExistWorld.cdcUserExists then [] else
                        [Sql.createUser c.username (optText c.password)])) ∧
      (Sql.createDatabase (databaseNameOf testEnvCdc svcCred.username) ∈
          queriesOf ConnRole.admin res.trace ↔ allExistWorld.databaseExists = false) ∧
      (resolveCdcCred testEnvCdc testStore = none →
        (Sql.createUser svcCred.username svcCred.password ∈
            queriesOf ConnRole.admin res.trace ↔
          allExistWorld.serviceUserExists = false)) ∧
      (∀ c, resolveCdcCred testEnvCdc testStore = some c → c.username ≠ svcCred.username →
        ((Sql.createUser svcCred.username svcCred.password ∈
            queriesOf ConnRole.admin res.trace ↔
            allExistWorld.serviceUserExists = false) ∧
         (Sql.createUser c.username (optText c.password) ∈
            queriesOf ConnRole.admin res.trace ↔ allExistWorld.cdcUserExists = false))) ∧
      (allExistWorld.databaseExists = true → allExistWorld.serviceUserExists = true →
        allExistWorld.cdcUserExists = true →
        ∀ q ∈ queriesOf ConnRole.admin res.trace, q.isCreate = false) :=
  ⟨by decide, by decide, rfl,
    admin_creation_gating testEnvCdc testStore allExistWorld adminCred svcCred
      (by decide) (by decide) rfl⟩

/-- C9: with a CDC payload that has a username but no password, the run still
enters the CDC block, the administrative connection issues the role-existence
check for that username (and, when the role is absent, the CREATE USER
statement), and the run completes with the success message. -/
theorem cdc_username_without_password (env : Env) (store : String → RawSecret)
    (w : DbWorld) (admin svc : Credential) (sid : String) (p : Payload) (u : String)
    (hm : resolveCred (store env.masterUserSecret) = some admin)
    (hs : resolveCred (store env.appUserSecret) = some svc)
    (hsid : env.cdcUserSecret = some sid)
    (hp : (store sid).secretString = some p)
    (hu : p.username = some u)
    (hpw : p.password = none)
    (hok : w.adminFailAt = none) :
    ∃ res, handler env store w = Except.ok res ∧
      roleEvents ConnRole.cdc res.trace ≠ [] ∧
      Sql.roleExistsCheck u ∈ queriesOf ConnRole.admin res.trace ∧
      (w.cdcUserExists = false →
        Sql.createUser u (optText none) ∈ queriesOf ConnRole.admin res.trace) ∧
      res.message = bootstrapMessage (databaseNameOf env svc.username) := by
  have hc : resolveCdcCred env store = some (CdcCredential.mk u none) := by
    simp [resolveCdcCred, hsid, hp, hu, hpw]
  have hq : queriesOf ConnRole.admin
      (runProvisioning env admin svc (resolveCdcCred env store) w).trace =
      adminStmts (databaseNameOf env svc.username) svc (resolveCdcCred env store) w := by
    rw [queriesOf_admin_run, hok]
    rfl
  refine ⟨_, handler_eq env store w admin svc hm hs, ?_, ?_, ?_,
    message_run env admin svc _ w⟩
  · rw [hc]
    exact roleEvents_cdc_run_some env admin svc _ w
  · rw [hq, hc]
    simp [adminStmts]
  · intro hcu
    rw [hq, hc]
    simp [adminStmts, hcu]

/-- C9 witness: concrete run with the CDC payload `{ username: partial_user }`
and no password; the role check and creation happen and the message is
returned. -/
theorem cdc_username_without_password_witness :
    resolveCred (testStore testEnvCdcNoPw.masterUserSecret) = some adminCred ∧
    resolveCred (testStore testEnvCdcNoPw.appUserSecret) = some svcCred ∧
    testEnvCdcNoPw.cdcUserSecret = some ("cdc-nopw") ∧
    (testStore ("cdc-nopw")).secretString =
      some (Payload.mk (some ("partial_user")) none) ∧
    calmWorld.adminFailAt = none ∧
    ∃ res, handler testEnvCdcNoPw testStore calmWorld = Except.ok res ∧
      roleEvents ConnRole.cdc res.trace ≠ [] ∧
      Sql.roleExistsCheck ("partial_user") ∈ queriesOf ConnRole.admin res.trace ∧
      (calmWorld.cdcUserExists = false →
        Sql.createUser ("partial_user") (optText none) ∈
          queriesOf ConnRole.admin res.trace) ∧
      res.message = bootstrapMessage (databaseNameOf testEnvCdcNoPw svcCred.username) :=
  ⟨by decide, by decide, rfl, by decide, rfl,
    cdc_username_without_password testEnvCdcNoPw testStore calmWorld adminCred svcCred
      ("cdc-nopw") (Payload.mk (some ("partial_user")) none) ("partial_user")
      (by decide) (by decide) rfl (by decide) rfl rfl rfl⟩

/-- C10: when the CDC block is skipped because no identifier is configured or
the fetched secret has no SecretString, the whole trace — administrative and
service streams included — equals that of a run with CDC disabled, and the
administrative connection issues role lookups and user creations only for the
service username. -/
theorem cdc_skip_is_frame (env : Env) (store : String → RawSecret) (w : DbWorld)
    (admin svc : Credential)
    (hm : resolveCred (store env.masterUserSecret) = some admin)
    (hs : resolveCred (store env.appUserSecret) = some svc)
    (hskip : env.cdcUserSecret = none ∨
      ∃ sid, env.cdcUserSecret = some sid ∧ (store sid).secretString = none) :
    ∃ res res0, handler env store w = Except.ok res ∧
      handler (Env.mk env.masterUserSecret env.appUserSecret none env.appDatabaseName
        env.appSchemaName env.rdsHost) store w = Except.ok res0 ∧
      res.trace = res0.trace ∧ res.message = res0.message ∧
      (∀ u, Sql.roleExistsCheck u ∈ queriesOf ConnRole.admin res.trace →
        u = svc.username) ∧
      (∀ u pw, Sql.createUser u pw ∈ queriesOf ConnRole.admin res.trace →
        u = svc.username ∧ pw = svc.password) := by
  have hc : resolveCdcCred env store = none := by
    rcases hskip with h | ⟨sid, h1, h2⟩
    · simp [resolveCdcCred, h]
    · simp [resolveCdcCred, h1, h2]
  have hc0 : resolveCdcCred (Env.mk env.masterUserSecret env.appUserSecret none
      env.appDatabaseName env.appSchemaName env.rdsHost) store = none := rfl
  have hq : queriesOf ConnRole.admin
      (runProvisioning env admin svc (resolveCdcCred env store) w).trace =
      truncateAt (adminStmts (databaseNameOf env svc.username) svc
        (resolveCdcCred env store) w) w.adminFailAt :=
    queriesOf_admin_run env admin svc _ w
  refine ⟨_, _, handler_eq env store w admin svc hm hs,
    handler_eq _ store w admin svc hm hs, ?_, ?_, ?_, ?_⟩
  · rw [hc, hc0]
    rfl
  · rw [hc, hc0]
    rfl
  · intro u hmem
    rw [hq, hc] at hmem
    have hmem2 := mem_of_mem_truncateAt _ _ _ hmem
    cases hdb : w.databaseExists <;> cases hsu : w.serviceUserExists <;>
      simp [adminStmts, hdb, hsu] at hmem2 <;> exact hmem2
  · intro u pw hmem
    rw [hq, hc] at hmem
    have hmem2 := mem_of_mem_truncateAt _ _ _ hmem
    cases hdb : w.databaseExists <;> cases hsu : w.serviceUserExists <;>
      simp [adminStmts, hdb, hsu] at hmem2 <;> simp [hmem2]

/-- C10 witness: concrete run whose CDC secret id resolves to a record with
no SecretString; the trace equals the CDC-disabled trace. -/
theorem cdc_skip_is_frame_witness :
    resolveCred (testStore testEnvCdcNoBody.masterUserSecret) = some adminCred ∧
    resolveCred (testStore testEnvCdcNoBody.appUserSecret) = some svcCred ∧
    (testEnvCdcNoBody.cdcUserSecret = none ∨
      ∃ sid, testEnvCdcNoBody.cdcUserSecret = some sid ∧
        (testStore sid).secretString = none) ∧
    ∃ res res0, handler testEnvCdcNoBody testStore calmWorld = Except.ok res ∧
      handler (Env.mk testEnvCdcNoBody.masterUserSecret testEnvCdcNoBody.appUserSecret
        none testEnvCdcNoBody.appDatabaseName testEnvCdcNoBody.appSchemaName
        testEnvCdcNoBody.rdsHost) testStore calmWorld = Except.ok res0 ∧
      res.trace = res0.trace ∧ res.message = res0.message ∧
      (∀ u, Sql.roleExistsCheck u ∈ queriesOf ConnRole.admin res.trace →
        u = svcCred.username) ∧
      (∀ u pw, Sql.createUser u pw ∈ queriesOf ConnRole.admin res.trace →
        u = svcCred.username ∧ pw = svcCred.password) :=
  ⟨by decide, by decide, Or.inr ⟨"cdc-absent", rfl, by decide⟩,
    cdc_skip_is_frame testEnvCdcNoBody testStore calmWorld adminCred svcCred
      (by decide) (by decide) (Or.inr ⟨"cdc-absent", rfl, by decide⟩)⟩

end Bootstrap
